import Mathlib

/-!
Verification of the product-extraction and CSV-export pipeline of the
web-scraping repository (`scraper.py`).

The embedding models:
* parsed HTML documents as a tree of element nodes (`Node`);
* CSS selectors as an inductive `Selector` whose evaluation either
  yields the matching descendants in document order or raises a
  `QueryError` (an invalid selector expression, as raised by the
  query engine `soupsieve` behind BeautifulSoup's `select`);
* `WebScraper._clean_price` as `cleanPrice` (the `re.sub` character
  filter followed by Python's `str.strip`);
* `WebScraper._extract_product` as `extractProduct`, producing the
  record as an association list in the key order the Python dict is
  built (`name`, `price`, `rating`);
* `WebScraper.parse_products` as `parseProducts` (and the
  per-container loop as `processContainers`), with the per-container
  `try/except/continue` modelled by `Except.toOption` inside
  `List.filterMap`, and the instance mutation `self.products = products`
  modelled explicitly by `parseProductsS` over `ScraperState`;
* `CSVExporter.export` as `exportCsv`, producing the byte content of
  the written CSV file (pandas `DataFrame(products)` column inference,
  projection onto `["name","price","rating"]`, and `to_csv` with
  minimal quoting).
-/

/-- An element node of a parsed HTML document: tag name, `class`
attribute values, the node's own text, and child elements in document
order. -/
inductive Node where
  | elem (tag : String) (classes : List String) (text : String) (children : List Node)

/-- A CSS selector expression as handed to `soup.select` /
`container.select_one`.  A syntactically invalid expression makes the
query engine raise (modelled by the `invalid` constructor). -/
inductive Selector where
  | cls (name : String)
  | tag (name : String)
  | invalid (raw : String)
  deriving DecidableEq, Repr

/-- The error raised by the query engine on a syntactically invalid
selector (soupsieve's `SelectorSyntaxError`). -/
inductive QueryError where
  | invalidSelector (raw : String)
  deriving DecidableEq, Repr

/-- The selector dictionary consumed by `parse_products`: the four
required keys `container`, `name`, `price`, `rating`. -/
structure SelectorConfig where
  container : Selector
  name : Selector
  price : Selector
  rating : Selector
  deriving DecidableEq, Repr

/-- Does a (valid) selector match a node? -/
def selMatches : Selector → Node → Bool
  | .cls c, .elem _ classes _ _ => classes.contains c
  | .tag t, .elem tg _ _ _ => tg == t
  | .invalid _, _ => false

mutual
/-- All proper descendants of a node, in document (pre-)order. -/
def descendants : Node → List Node
  | .elem _ _ _ ch => descendantsList ch

/-- Concatenated subtrees of a list of sibling nodes, each node before
its own descendants. -/
def descendantsList : List Node → List Node
  | [] => []
  | n :: ns => n :: descendants n ++ descendantsList ns
end

mutual
/-- The concatenated text content of a node's subtree. -/
def nodeText : Node → String
  | .elem _ _ t ch => t ++ nodeTextList ch

/-- The concatenated text content of a list of sibling subtrees. -/
def nodeTextList : List Node → String
  | [] => ""
  | n :: ns => nodeText n ++ nodeTextList ns
end

/-- Python's `str.strip()`: drop leading and trailing whitespace. -/
def pyStrip (s : String) : String :=
  String.mk (((s.data.dropWhile Char.isWhitespace).reverse.dropWhile Char.isWhitespace).reverse)

/-- `element.get_text(strip=True)`: the visible text of the subtree,
trimmed. -/
def getText (n : Node) : String :=
  pyStrip (nodeText n)

/-- `element.select(sel)`: all matching descendants in document order,
or a `QueryError` when the selector expression is invalid. -/
def select (root : Node) (s : Selector) : Except QueryError (List Node) :=
  match s with
  | .invalid raw => .error (.invalidSelector raw)
  | s => .ok ((descendants root).filter (selMatches s))

/-- `element.select_one(sel)`: the first matching descendant, if any. -/
def selectOne (root : Node) (s : Selector) : Except QueryError (Option Node) :=
  (select root s).map List.head?

/-- The character class kept by `_clean_price`'s
`re.sub(r'[^\d.,]', '', ...)`: decimal digits, `.` and `,`. -/
def keepPriceChar (c : Char) : Bool :=
  c.isDigit || c == '.' || c == ','

/-- `re.sub(r'[^\d.,]', '', s)` on the character list: each character
not in the kept class is replaced by the empty string. -/
def reSubDropNonPrice : List Char → List Char
  | [] => []
  | c :: cs => if keepPriceChar c then c :: reSubDropNonPrice cs else reSubDropNonPrice cs

/-- `WebScraper._clean_price`: strip every character outside `[\d.,]`,
then `cleaned.strip() if cleaned else 'N/A'`. -/
def cleanPrice (priceText : String) : String :=
  let cleaned := String.mk (reSubDropNonPrice priceText.data)
  if cleaned.data = [] then "N/A" else pyStrip cleaned

/-- A product record as built by `_extract_product`: a Python dict,
modelled as an association list in insertion order. -/
abbrev RecordAssoc := List (String × String)

/-- `WebScraper._extract_product`: evaluate the three field selectors
scoped to the container (first match), degrade a missing match to the
sentinel `"N/A"`, clean the price text.  A `QueryError` raised by a
field selector propagates out of this function. -/
def extractProduct (container : Node) (sel : SelectorConfig) : Except QueryError RecordAssoc :=
  match selectOne container sel.name with
  | .error e => .error e
  | .ok nameElem =>
    match selectOne container sel.price with
    | .error e => .error e
    | .ok priceElem =>
      match selectOne container sel.rating with
      | .error e => .error e
      | .ok ratingElem =>
        .ok [("name", match nameElem with
                | some e => getText e
                | none => "N/A"),
             ("price", match priceElem with
                | some e => cleanPrice (getText e)
                | none => "N/A"),
             ("rating", match ratingElem with
                | some e => getText e
                | none => "N/A")]

/-- The `for idx, container in enumerate(containers)` loop of
`parse_products`: a container whose extraction raises is caught,
logged and skipped (`continue`); a produced record is appended (the
three-key dict is non-empty, hence always truthy under `if product:`). -/
def processContainers (cs : List Node) (sel : SelectorConfig) : List RecordAssoc :=
  cs.filterMap (fun c => (extractProduct c sel).toOption)

/-- `WebScraper.parse_products`: evaluate the container selector over
the document (a `QueryError` here propagates via the outer
`try/except/raise`), then run the per-container loop. -/
def parseProducts (soup : Node) (sel : SelectorConfig) : Except QueryError (List RecordAssoc) :=
  match select soup sel.container with
  | .error e => .error e
  | .ok cs => .ok (processContainers cs sel)

/-- The mutable fields of a `WebScraper` instance relevant to
extraction (`self.url`, `self.timeout`, `self.products`). -/
structure ScraperState where
  url : String
  timeout : Nat
  products : List RecordAssoc
  deriving DecidableEq, Repr

/-- `WebScraper.parse_products` including its effect on the instance:
line 96 stores the extracted records in `self.products` before
returning them. -/
def parseProductsS (st : ScraperState) (soup : Node) (sel : SelectorConfig) :
    Except QueryError (ScraperState × List RecordAssoc) :=
  match select soup sel.container with
  | .error e => .error e
  | .ok cs =>
      let ps := processContainers cs sel
      .ok ({ st with products := ps }, ps)

/-- `WebScraper.get_products`. -/
def getProducts (st : ScraperState) : List RecordAssoc :=
  st.products

/-- Column inference of `pd.DataFrame(products)` for a list of dicts:
the union of the records' keys, in order of first appearance. -/
def dfColumns (products : List RecordAssoc) : List String :=
  products.foldl (fun acc r => acc ++ (r.map Prod.fst).filter (fun k => !acc.contains k)) []

/-- The cell value a `DataFrame` holds for record `r` at column `k`:
the dict's value, or `NaN` — serialized by `to_csv` as the empty
field — when the key is absent. -/
def lookupField (r : RecordAssoc) (k : String) : String :=
  (r.lookup k).getD ""

/-- `csv.QUOTE_MINIMAL` (the `to_csv` default): a field is quoted iff
it contains the delimiter, the quote character or a line break. -/
def csvNeedsQuote (s : String) : Bool :=
  s.data.any (fun c => c == ',' || c == '"' || c == '\n' || c == '\r')

/-- Double every quote character of a quoted field's content. -/
def csvEscapeQuotes : List Char → List Char
  | [] => []
  | c :: cs =>
      if c == '"' then '"' :: '"' :: csvEscapeQuotes cs else c :: csvEscapeQuotes cs

/-- One serialized CSV field under minimal quoting. -/
def csvField (s : String) : String :=
  if csvNeedsQuote s then "\"" ++ String.mk (csvEscapeQuotes s.data) ++ "\"" else s

/-- One serialized CSV line: comma-joined fields plus the `\n`
terminator `to_csv` writes. -/
def csvRow (fields : List String) : String :=
  String.intercalate "," (fields.map csvField) ++ "\n"

/-- `CSVExporter.export`, modelled as the content written to the
destination file: build `pd.DataFrame(products)`, project it onto the
columns of `['name', 'price', 'rating']` that exist in the frame, and
serialize with `to_csv(index=False)` (header row, then one row per
record). -/
def exportCsv (products : List RecordAssoc) : String :=
  let cols := (["name", "price", "rating"]).filter (fun c => (dfColumns products).contains c)
  csvRow cols ++ String.join (products.map (fun r => csvRow (cols.map (lookupField r))))

/-! ### Helper lemmas -/

/-- The `re.sub` character deletion is exactly `List.filter` by the
kept character class. -/
theorem reSubDropNonPrice_eq_filter (l : List Char) :
    reSubDropNonPrice l = l.filter keepPriceChar := by
  induction l with
  | nil => rfl
  | cons c cs ih =>
      by_cases hc : keepPriceChar c
      · simp [reSubDropNonPrice, hc, ih]
      · simp [reSubDropNonPrice, hc, ih]

/-- Characters surviving price cleaning are never whitespace. -/
theorem keepPriceChar_not_whitespace (c : Char) (h : keepPriceChar c = true) :
    c.isWhitespace = false := by
  by_contra hw
  have hw' : c.isWhitespace = true := by
    cases hws : c.isWhitespace
    · exact absurd hws hw
    · rfl
  have : c = ' ' ∨ c = '\t' ∨ c = '\r' ∨ c = '\n' := by
    simp [Char.isWhitespace] at hw'
    tauto
  rcases this with h1 | h1 | h1 | h1 <;> subst h1 <;> simp [keepPriceChar] at h

/-- `dropWhile` is the identity on a list none of whose elements
satisfy the predicate. -/
theorem dropWhile_eq_self_of_forall_not {α : Type} (p : α → Bool) (l : List α)
    (h : ∀ a ∈ l, p a = false) : l.dropWhile p = l := by
  cases l with
  | nil => rfl
  | cons a l =>
      have ha : p a = false := h a (List.mem_cons_self a l)
      simp [List.dropWhile_cons, ha]

/-- Python's `strip` is the identity on a whitespace-free string. -/
theorem pyStrip_eq_self_of_no_whitespace (l : List Char)
    (h : ∀ c ∈ l, c.isWhitespace = false) : pyStrip (String.mk l) = String.mk l := by
  unfold pyStrip
  have h1 : l.dropWhile Char.isWhitespace = l :=
    dropWhile_eq_self_of_forall_not _ _ h
  have h2 : l.reverse.dropWhile Char.isWhitespace = l.reverse :=
    dropWhile_eq_self_of_forall_not _ _ (fun c hc => h c (List.mem_reverse.mp hc))
  simp only [h1, h2, List.reverse_reverse]

/-- `cleanPrice` characterized through `List.filter`. -/
theorem cleanPrice_eq (s : String) :
    cleanPrice s =
      if s.data.filter keepPriceChar = [] then "N/A"
      else pyStrip (String.mk (s.data.filter keepPriceChar)) := by
  simp [cleanPrice, reSubDropNonPrice_eq_filter]

/-- Kept-only prefix of the output order lemma: the successful results
of a `filterMap`, wrapped back in `some`, form a sublist of the raw
per-element results — the relative order of survivors is the input
order. -/
theorem filterMap_map_some_sublist {α β : Type} (f : α → Option β) (l : List α) :
    ((l.filterMap f).map some).Sublist (l.map f) := by
  induction l with
  | nil => simp
  | cons a l ih =>
      cases hfa : f a with
      | none =>
          rw [List.filterMap_cons, hfa, List.map_cons, hfa]
          exact ih.cons none
      | some b =>
          rw [List.filterMap_cons, hfa, List.map_cons, List.map_cons, hfa]
          exact ih.cons₂ (some b)

/-- When no element of the input fails, `filterMap` keeps every result
in input order. -/
theorem filterMap_map_some_of_all_some {α β : Type} (f : α → Option β) (l : List α)
    (h : ∀ a ∈ l, f a ≠ none) :
    (l.filterMap f).map some = l.map f := by
  induction l with
  | nil => rfl
  | cons a l ih =>
      cases hfa : f a with
      | none => exact absurd hfa (h a (List.mem_cons_self a l))
      | some b =>
          rw [List.filterMap_cons, hfa, List.map_cons, List.map_cons, hfa,
            ih (fun x hx => h x (List.mem_cons_of_mem a hx))]

/-! ### Concrete fixtures used to instantiate the theorems -/

/-- A product-name element (`class="ttl"`). -/
def nameNode : Node := .elem "h3" ["ttl"] "Widget" []

/-- A price element (`class="prc"`). -/
def priceNode : Node := .elem "p" ["prc"] "£9.99" []

/-- One product container (`class="item"`) holding a name and a price
but no rating element. -/
def sampleContainer : Node := .elem "div" ["item"] "" [nameNode, priceNode]

/-- A document with exactly one product container. -/
def sampleDoc : Node := .elem "html" [] "" [sampleContainer]

/-- The record `_extract_product` yields for `sampleContainer` under
`goodSel`. -/
def sampleRecord : RecordAssoc := [("name", "Widget"), ("price", "9.99"), ("rating", "N/A")]

/-- A selector configuration whose four selectors are all valid; the
rating selector matches nothing in the fixtures. -/
def goodSel : SelectorConfig :=
  { container := .cls "item", name := .cls "ttl", price := .cls "prc", rating := .cls "rat" }

/-- Like `goodSel` but with a container selector matching nothing. -/
def noMatchSel : SelectorConfig :=
  { container := .cls "absent", name := .cls "ttl", price := .cls "prc", rating := .cls "rat" }

/-- Like `goodSel` but with a syntactically invalid name selector: the
query engine raises a `QueryError` on every `select_one` call with it. -/
def badFieldSel : SelectorConfig :=
  { container := .cls "item", name := .invalid "[[", price := .cls "prc", rating := .cls "rat" }

/-- Like `goodSel` but with a syntactically invalid container selector. -/
def badContainerSel : SelectorConfig :=
  { container := .invalid "<<", name := .cls "ttl", price := .cls "prc", rating := .cls "rat" }

/-- A second and third product container for order-preservation tests. -/
def containerA : Node :=
  .elem "div" ["item"] "" [.elem "h3" ["ttl"] "Alpha" [], .elem "p" ["prc"] "£1.00" []]

/-- See `containerA`. -/
def containerB : Node :=
  .elem "div" ["item"] "" [.elem "h3" ["ttl"] "Beta" [], .elem "p" ["prc"] "£2.50" []]

/-- A document with two product containers in document order. -/
def twoDoc : Node := .elem "html" [] "" [containerA, containerB]

/-- A freshly constructed `WebScraper` instance's state. -/
def st0 : ScraperState :=
  { url := "https://example-ecommerce.com/products", timeout := 10, products := [] }

/-! ### Claim theorems -/

/-- C2: price normalization removes every character that is not a
decimal digit, `.` or `,`, trims the remainder, and yields `"N/A"`
when the remainder is empty; on `"£51.77"` it yields `"51.77"`, on
`"$1,234.56"` it yields `"1,234.56"`, and on `"Free"` it yields
`"N/A"`. -/
theorem cleanPrice_spec :
    cleanPrice "£51.77" = "51.77" ∧
    cleanPrice "$1,234.56" = "1,234.56" ∧
    cleanPrice "Free" = "N/A" ∧
    ∀ s : String,
      cleanPrice s =
        if s.data.filter keepPriceChar = [] then "N/A"
        else pyStrip (String.mk (s.data.filter keepPriceChar)) :=
  ⟨by decide, by decide, by decide, cleanPrice_eq⟩

/-- C3: price normalization is idempotent:
`cleanPrice (cleanPrice s) = cleanPrice s` for every string `s`. -/
theorem cleanPrice_idempotent (s : String) : cleanPrice (cleanPrice s) = cleanPrice s := by
  rcases h : s.data.filter keepPriceChar with _ | ⟨c, cs⟩
  · rw [cleanPrice_eq s, h]
    decide
  · have hall : ∀ x ∈ c :: cs, keepPriceChar x = true := by
      intro x hx
      exact (List.mem_filter.mp (h ▸ hx)).2
    have hws : ∀ x ∈ c :: cs, x.isWhitespace = false :=
      fun x hx => keepPriceChar_not_whitespace x (hall x hx)
    have hstrip : pyStrip (String.mk (c :: cs)) = String.mk (c :: cs) :=
      pyStrip_eq_self_of_no_whitespace _ hws
    have hfix : (c :: cs).filter keepPriceChar = c :: cs := List.filter_eq_self.mpr hall
    rw [cleanPrice_eq s, h]
    simp only [reduceCtorEq, if_false, hstrip]
    rw [cleanPrice_eq (String.mk (c :: cs))]
    simp only [String.data]
    rw [hfix]
    simp only [reduceCtorEq, if_false, hstrip]

/-- C4: when the container selector matches zero nodes of the
document, `parse_products` returns the empty record list and raises no
error. -/
theorem parseProducts_empty_containers (doc : Node) (sel : SelectorConfig)
    (h : select doc sel.container = .ok []) :
    parseProducts doc sel = .ok [] := by
  simp [parseProducts, h, processContainers]

/-- Witness for C4 at a concrete document and configuration. -/
theorem parseProducts_empty_containers_witness :
    parseProducts sampleDoc noMatchSel = .ok [] :=
  parseProducts_empty_containers sampleDoc noMatchSel rfl

/-- C1: every record `_extract_product` produces carries exactly the
keys `name`, `price`, `rating` in that order, and a field whose
sub-selector matches no descendant of the container holds the sentinel
`"N/A"`. -/
theorem extractProduct_keys_and_sentinels
    (container : Node) (sel : SelectorConfig) (r : RecordAssoc)
    (h : extractProduct container sel = .ok r) :
    r.map Prod.fst = ["name", "price", "rating"] ∧
    (selectOne container sel.name = .ok none → r.lookup "name" = some "N/A") ∧
    (selectOne container sel.price = .ok none → r.lookup "price" = some "N/A") ∧
    (selectOne container sel.rating = .ok none → r.lookup "rating" = some "N/A") := by
  cases hn : selectOne container sel.name with
  | error e => simp [extractProduct, hn] at h
  | ok nameElem =>
    cases hp : selectOne container sel.price with
    | error e => simp [extractProduct, hn, hp] at h
    | ok priceElem =>
      cases hr : selectOne container sel.rating with
      | error e => simp [extractProduct, hn, hp, hr] at h
      | ok ratingElem =>
        simp only [extractProduct, hn, hp, hr, Except.ok.injEq] at h
        subst h
        refine ⟨rfl, ?_, ?_, ?_⟩
        · intro h'
          injection h' with h2
          subst h2
          rfl
        · intro h'
          injection h' with h2
          subst h2
          rfl
        · intro h'
          injection h' with h2
          subst h2
          rfl

/-- Witness for C1: the sample container's record has the three keys
in order, and its unmatched rating field is the sentinel. -/
theorem extractProduct_keys_and_sentinels_witness :
    sampleRecord.map Prod.fst = ["name", "price", "rating"] ∧
    sampleRecord.lookup "rating" = some "N/A" :=
  have h := extractProduct_keys_and_sentinels sampleContainer goodSel sampleRecord rfl
  ⟨h.1, h.2.2.2 rfl⟩

/-- C5: a container whose extraction raises is skipped and the
records of the remaining containers are exactly those of a run on the
container list with the failing container absent; the operation does
not abort. -/
theorem parseProducts_skips_failing_container
    (doc : Node) (sel : SelectorConfig) (xs ys : List Node) (bad : Node) (e : QueryError)
    (hsel : select doc sel.container = .ok (xs ++ bad :: ys))
    (hbad : extractProduct bad sel = .error e) :
    parseProducts doc sel = .ok (processContainers (xs ++ ys) sel) := by
  have hnone : (extractProduct bad sel).toOption = none := by
    rw [hbad]
    rfl
  simp [parseProducts, hsel, processContainers, List.filterMap_append,
    List.filterMap_cons, hnone]

/-- Witness for C5: with an invalid name selector the single container
fails extraction, is skipped, and the run matches the empty-container
run. -/
theorem parseProducts_skips_failing_container_witness :
    parseProducts sampleDoc badFieldSel = .ok [] :=
  parseProducts_skips_failing_container sampleDoc badFieldSel [] [] sampleContainer
    (.invalidSelector "[[") rfl rfl

/-- C6 counterexample: a `QueryError` on the per-field `name` selector
does not degrade the field to the sentinel — the container is skipped
entirely, so the output is `[]` rather than the record the claim
predicts (`name = "N/A"`, extracted price and rating sentinel). -/
theorem fieldQueryError_counterexample :
    selectOne sampleContainer badFieldSel.name =
      .error (.invalidSelector "[[") ∧
    parseProducts sampleDoc badFieldSel = .ok [] ∧
    (Except.ok ([] : List RecordAssoc) : Except QueryError (List RecordAssoc)) ≠
      .ok [[("name", "N/A"), ("price", "9.99"), ("rating", "N/A")]] :=
  ⟨rfl, rfl, by simp⟩

/-- C6 amended: a `QueryError` raised by a per-field selector inside a
container makes `parse_products` skip that whole container (no record
is emitted for it) while continuing with the others — it does not
abort; only an invalid container selector aborts `parse_products`. -/
theorem fieldQueryError_skips_container (doc : Node) (sel : SelectorConfig) :
    (∀ cs c e, select doc sel.container = .ok cs → extractProduct c sel = .error e →
      parseProducts doc sel = .ok (processContainers cs sel) ∧
        (extractProduct c sel).toOption = none) ∧
    (∀ raw, sel.container = .invalid raw →
      parseProducts doc sel = .error (.invalidSelector raw)) := by
  constructor
  · intro cs c e hsel hc
    constructor
    · simp [parseProducts, hsel]
    · rw [hc]
      rfl
  · intro raw hraw
    simp [parseProducts, select, hraw]

/-- Witness for the amended C6: the invalid name selector skips the
sample container without aborting, and the invalid container selector
aborts with the `QueryError`. -/
theorem fieldQueryError_skips_container_witness :
    parseProducts sampleDoc badFieldSel = .ok ([] : List RecordAssoc) ∧
    parseProducts sampleDoc badContainerSel = .error (.invalidSelector "<<") :=
  ⟨((fieldQueryError_skips_container sampleDoc badFieldSel).1 [sampleContainer]
      sampleContainer (.invalidSelector "[[") rfl rfl).1,
    (fieldQueryError_skips_container sampleDoc badContainerSel).2 "<<" rfl⟩

/-- C7 counterexample: exporting an empty record set writes a single
empty line (the header of a zero-column `DataFrame`), not the header
`name,price,rating` the claim promises. -/
theorem exportCsv_empty_counterexample :
    exportCsv [] = "\n" ∧ "\n" ≠ "name,price,rating\n" :=
  ⟨rfl, by decide⟩

/-- C7 amended: exporting an empty record set succeeds and the file
content is exactly one empty line — the header row of the empty
(zero-column) `DataFrame` — and zero data rows. -/
theorem exportCsv_empty :
    exportCsv [] = csvRow [] ∧ csvRow [] = "\n" :=
  ⟨rfl, rfl⟩

/-- C8: exporting the single record
`{name: "A Light in the Attic", price: "51.77", rating: "Three"}`
writes exactly the header `name,price,rating` and the one data row
`A Light in the Attic,51.77,Three`, in the fixed column order. -/
theorem exportCsv_single_record :
    exportCsv [[("name", "A Light in the Attic"), ("price", "51.77"), ("rating", "Three")]] =
      "name,price,rating\nA Light in the Attic,51.77,Three\n" := by
  decide

/-- C9: extraction preserves document order — `parse_products` is the
per-container loop over the matched containers in document order, the
surviving records (wrapped in `some`) form a sublist of the raw
per-container results in that order, and when every container
extracts successfully the output lists one record per container in
document order. -/
theorem parseProducts_preserves_document_order
    (doc : Node) (sel : SelectorConfig) (cs : List Node)
    (hsel : select doc sel.container = .ok cs) :
    parseProducts doc sel = .ok (processContainers cs sel) ∧
    ((processContainers cs sel).map some).Sublist
      (cs.map (fun c => (extractProduct c sel).toOption)) ∧
    ((∀ c ∈ cs, (extractProduct c sel).toOption ≠ none) →
      (processContainers cs sel).map some =
        cs.map (fun c => (extractProduct c sel).toOption)) :=
  ⟨by simp [parseProducts, hsel], filterMap_map_some_sublist _ cs,
    fun h => filterMap_map_some_of_all_some _ cs h⟩

/-- Witness for C9 on a two-container document: both containers
succeed and the output lists their records in document order. -/
theorem parseProducts_preserves_document_order_witness :
    (processContainers [containerA, containerB] goodSel).map some =
      [containerA, containerB].map (fun c => (extractProduct c goodSel).toOption) :=
  (parseProducts_preserves_document_order twoDoc goodSel [containerA, containerB] rfl).2.2
    (by intro c hc
        simp only [List.mem_cons, List.not_mem_nil, or_false] at hc
        rcases hc with h | h
        · subst h
          decide
        · subst h
          decide)

/-- C10 counterexample: `parse_products` does modify a field of the
scraper instance — line 96 stores the extracted records in
`self.products`, so the state after the call differs from the state
before it. -/
theorem parseProducts_mutates_instance_counterexample :
    parseProductsS st0 sampleDoc goodSel =
      .ok ({ st0 with products := [sampleRecord] }, [sampleRecord]) ∧
    ({ st0 with products := [sampleRecord] } : ScraperState) ≠ st0 :=
  ⟨rfl, by decide⟩

/-- C10 amended: the only instance state `parse_products` modifies is
the `products` field, which it sets to the returned record list (so a
subsequent `get_products` returns exactly those records); `url` and
`timeout` are untouched, and the records returned are the extraction
result itself. -/
theorem parseProductsS_frame (st : ScraperState) (doc : Node) (sel : SelectorConfig)
    (st' : ScraperState) (recs : List RecordAssoc)
    (h : parseProductsS st doc sel = .ok (st', recs)) :
    st'.url = st.url ∧ st'.timeout = st.timeout ∧ st'.products = recs ∧
      getProducts st' = recs := by
  cases hsel : select doc sel.container with
  | error e => simp [parseProductsS, hsel] at h
  | ok cs =>
      simp only [parseProductsS, hsel, Except.ok.injEq, Prod.mk.injEq] at h
      obtain ⟨h1, h2⟩ := h
      subst h1
      subst h2
      exact ⟨rfl, rfl, rfl, rfl⟩

/-- Witness for the amended C10 at the sample document: after the
call, `products` holds the returned single record and the other
fields are unchanged. -/
theorem parseProductsS_frame_witness :
    ({ st0 with products := [sampleRecord] } : ScraperState).url = st0.url ∧
    ({ st0 with products := [sampleRecord] } : ScraperState).timeout = st0.timeout ∧
    ({ st0 with products := [sampleRecord] } : ScraperState).products = [sampleRecord] ∧
    getProducts { st0 with products := [sampleRecord] } = [sampleRecord] :=
  parseProductsS_frame st0 sampleDoc goodSel { st0 with products := [sampleRecord] }
    [sampleRecord] rfl
